import Mathlib

/-!
Shallow embedding of the bitski-js authorization core
(src/packages/browser/src/auth/oauth-manager.ts and the Bitski SDK entry
class) together with proofs of the specified properties.
-/

namespace BitskiJs

/-! ### JavaScript value model

Parsed JSON bodies are JavaScript values; `Option JVal` adds the
JavaScript `undefined` (absent property) as `none`. -/

/-- Model of a parsed JSON value as a JavaScript value. -/
inductive JVal where
  | jnull
  | jbool (b : Bool)
  | jnum (n : Int)
  | jstr (s : String)
  | jarr (elems : List JVal)
  | jobj (fields : List (String × JVal))

/-- JavaScript truthiness; `none` is `undefined`, which is falsy. -/
def truthy : Option JVal → Bool
  | none => false
  | some .jnull => false
  | some (.jbool b) => b
  | some (.jnum n) => n != 0
  | some (.jstr s) => s != ""
  | some (.jarr _) => true
  | some (.jobj _) => true

/-- Property access `v.k`: defined only on objects, `undefined` otherwise.
(The source only accesses properties under a truthiness guard, so the
null case is never reached there.) -/
def jsGet (v : Option JVal) (k : String) : Option JVal :=
  match v with
  | some (.jobj fields) => (fields.find? (fun p => p.1 == k)).map (fun p => p.2)
  | _ => none

mutual

/-- JavaScript String() coercion as applied by the Error constructor to
its message argument. An object stringifies to "[object Object]", an
array joins its stringified elements with commas (null elements
stringify to the empty string inside a join). -/
def jsToString : JVal → String
  | .jnull => "null"
  | .jbool b => if b then "true" else "false"
  | .jnum n => toString n
  | .jstr s => s
  | .jarr elems => String.intercalate "," (jsToStringElems elems)
  | .jobj _ => "[object Object]"

/-- Stringification of the elements of a JavaScript array for join:
null elements become the empty string. -/
def jsToStringElems : List JVal → List String
  | [] => []
  | .jnull :: rest => "" :: jsToStringElems rest
  | v :: rest => jsToString v :: jsToStringElems rest

end

/-- String() coercion lifted to possibly-undefined values. -/
def jsToStringOpt : Option JVal → String
  | none => "undefined"
  | some v => jsToString v

/-! ### parseResponse (oauth-manager.ts lines 178-194)

A fetch `Response` is modelled by its numeric status and the result of
`response.json()`: `none` when the body is not parseable as JSON (the
json() promise rejects), `some v` when it parses to `v`. The routine
either returns the parsed body or rejects with an Error whose message
is modelled here. -/

/-- Result of the promise returned by `parseResponse`: fulfilled with the
parsed JSON, or rejected with an Error carrying the given message. -/
inductive ParseResult where
  | ok (json : JVal)
  | error (message : String)

/-- Embedding of `OAuthManager.parseResponse`. The body is parsed first;
a parse failure is replaced by the generic could-not-parse Error. A 2xx
status returns the parsed body. Otherwise the thrown message follows
the truthiness-guarded chain `json && json.error && json.error.message`,
then `json && json.error`, then the generic fallback. -/
def parseResponse (status : Nat) (body : Option JVal) : ParseResult :=
  match body with
  | none => .error "Unknown error. Could not parse error response"
  | some json =>
    if 200 ≤ status ∧ status < 300 then
      .ok json
    else
      let e := jsGet (some json) "error"
      let m := jsGet e "message"
      if truthy (some json) && truthy e && truthy m then
        .error (jsToStringOpt m)
      else if truthy (some json) && truthy e then
        .error (jsToStringOpt e)
      else
        .error "Unknown error"

/-! ### requestUserInfo (oauth-manager.ts lines 157-172) -/

/-- Configuration record; `userInfoEndpoint` is `none` when the
configuration carries no user-info endpoint (the source checks its
truthiness, so the empty string behaves like an absent endpoint). -/
structure ServiceConfiguration where
  authorizationEndpoint : String
  revocationEndpoint : String
  tokenEndpoint : String
  userInfoEndpoint : Option String
deriving Repr, DecidableEq

/-- The DEFAULT_CONFIGURATION constant of oauth-manager.ts. -/
def DEFAULT_CONFIGURATION : ServiceConfiguration :=
  { authorizationEndpoint := "https://account.bitski.com/oauth2/auth"
    revocationEndpoint := ""
    tokenEndpoint := "https://account.bitski.com/oauth2/token"
    userInfoEndpoint := some "https://account.bitski.com/userinfo" }

/-- Truthiness of the optional endpoint string (the `!userInfoEndpoint`
check of the source: absent and empty are both falsy). -/
def endpointPresent : Option String → Bool
  | none => false
  | some s => s != ""

/-- Observable behaviour of `requestUserInfo`: either an immediate
rejection with no network activity, or a single HTTP GET carrying the
given headers. -/
inductive UserInfoAction where
  | rejected (message : String)
  | httpGet (url : String) (headers : List (String × String))
deriving Repr, DecidableEq

/-- Embedding of `OAuthManager.requestUserInfo`: reject before any fetch
when the configured user-info endpoint is falsy, otherwise GET the
endpoint with an Accept header and bearer authorization. -/
def requestUserInfo (cfg : ServiceConfiguration) (accessToken : String) : UserInfoAction :=
  match cfg.userInfoEndpoint with
  | none => .rejected "Could not find userinfo endpoint"
  | some ep =>
    if ep = "" then
      .rejected "Could not find userinfo endpoint"
    else
      .httpGet ep
        [("Accept", "application/json"),
         ("Authorization", "Bearer " ++ accessToken)]

/-! ### Scope handling (oauth-manager.ts lines 31, 58-68, 218-225)

The constructor executes
  `const additionalScopes = options.additionalScopes || ["offline"];`
  `this.scopes = DEFAULT_SCOPES;`
  `this.scopes.push(additionalScopes);`
`this.scopes = DEFAULT_SCOPES` aliases the module-level array, and
`push(additionalScopes)` appends the additional-scopes ARRAY as a single
element. So an element of the scope list is either a string or an array
of strings, and every constructed manager shares the one module-level
array, which grows by one element per construction. -/

/-- An element of the scopes array: either a plain string or a nested
array of strings (the pushed additionalScopes array). -/
inductive ScopeElem where
  | str (s : String)
  | arr (scopes : List String)
deriving Repr, DecidableEq

/-- Stringification of a scope element inside `Array.prototype.join`:
a nested array joins its own elements with commas. -/
def scopeElemToString : ScopeElem → String
  | .str s => s
  | .arr scopes => String.intercalate "," scopes

/-- The space-join `this.scopes.join(" ")` of `createAuthRequest`. -/
def joinScopes (scopes : List ScopeElem) : String :=
  String.intercalate " " (scopes.map scopeElemToString)

/-- The module-level DEFAULT_SCOPES array as initially defined. -/
def DEFAULT_SCOPES : List ScopeElem := [.str "openid"]

/-- The `options.additionalScopes || ["offline"]` default: an absent (or
null) option falls back to `["offline"]`; a present array, even the
empty one, is kept. -/
def effectiveAdditionalScopes : Option (List String) → List String
  | none => ["offline"]
  | some scopes => scopes

/-- Effect of one `OAuthManager` construction on the shared scopes array:
the constructor pushes the additional-scopes array onto the module-level
array it aliases, so the new shared array (which is also the scopes
field of every constructed manager) is the old one with one appended
element. -/
def constructManagerScopes (sharedScopes : List ScopeElem)
    (additionalScopes : Option (List String)) : List ScopeElem :=
  sharedScopes ++ [.arr (effectiveAdditionalScopes additionalScopes)]

/-- The shared scopes array after a sequence of manager constructions,
starting from the initial DEFAULT_SCOPES. -/
def scopesAfterConstructions (adds : List (Option (List String))) : List ScopeElem :=
  adds.foldl constructManagerScopes DEFAULT_SCOPES

/-! ### createAuthRequest (oauth-manager.ts lines 218-225)

The request is built by `new AuthorizationRequest(fields, undefined,
false)`: the third argument disables PKCE. -/

/-- Model of an appauth AuthorizationRequest as constructed by the
manager. -/
structure AuthRequest where
  clientId : String
  redirectUri : String
  responseType : String
  scope : String
  usePkce : Bool
  codeVerifier : Option String
deriving Repr, DecidableEq

/-- Modelled from the spec: the AuthorizationRequest constructor of the
external OIDC client library (not part of this repository), to which
PKCE is delegated. Per the spec, the PKCE code verifier and challenge
are generated by the library for a request exactly when PKCE is enabled
for it; `freshVerifier` stands for the newly generated value. -/
def mkAppAuthRequest (clientId redirectUri responseType scope : String)
    (usePkce : Bool) (freshVerifier : String) : AuthRequest :=
  { clientId, redirectUri, responseType, scope, usePkce
    codeVerifier := if usePkce then some freshVerifier else none }

/-- Embedding of `OAuthManager.createAuthRequest`: response type "code",
scope the space-join of the scopes array, and PKCE explicitly disabled
by the literal `false` third constructor argument. -/
def createAuthRequest (clientId redirectUri : String) (scopes : List ScopeElem)
    (freshVerifier : String) : AuthRequest :=
  mkAppAuthRequest clientId redirectUri "code" (joinScopes scopes) false freshVerifier

/-! ### Pending entry and the notification point
(oauth-manager.ts lines 46, 73-116, 202-213)

The manager holds at most one `pendingResolver` holding the fulfill and
reject functions of the promise created by the latest signIn or
callback. Promises are modelled by numeric identities allocated from a
counter, so that which promise a settle action targets is observable;
the bound authorization request handler is likewise modelled by its
kind and a numeric instance identity, so that replacing it with a new
handler instance is observable. -/

/-- A successful authorization response (code and state). -/
structure AuthResponse where
  code : String
  state : String
deriving Repr, DecidableEq

/-- An authorization error response; `didCompleteAuthorizationFlow`
rejects with `new Error(errorResponse.error)`. -/
structure AuthError where
  error : String
  errorDescription : String
deriving Repr, DecidableEq

/-- Kind of authorization request handler the manager binds. -/
inductive HandlerKind where
  | popupHandler
  | redirectHandler
deriving Repr, DecidableEq

/-- A settlement of a pending promise performed through the stored
resolver: fulfilled with the authorization response, or rejected with
an Error carrying the given message. -/
inductive SettleAction where
  | fulfilled (promiseId : Nat) (response : AuthResponse)
  | rejected (promiseId : Nat) (message : String)
deriving Repr, DecidableEq

/-- The promise identity a settle action targets. -/
def SettleAction.promiseId : SettleAction → Nat
  | .fulfilled pid _ => pid
  | .rejected pid _ => pid

/-- Mutable manager state relevant to flow correlation: the optional
pending resolver (by the identity of the promise it settles), the
bound handler (kind and instance identity), and a freshness counter. -/
structure ManagerFlowState where
  pendingResolver : Option Nat
  authHandler : Option (HandlerKind × Nat)
  nextId : Nat
deriving Repr, DecidableEq

/-- A manager directly after `new OAuthManager(...)`: no pending
resolver and no auth handler bound. -/
def initialFlowState : ManagerFlowState :=
  { pendingResolver := none, authHandler := none, nextId := 0 }

/-- Embedding of `OAuthManager.didCompleteAuthorizationFlow`: when a
pending resolver is stored, a non-null response fulfills it and clears
it; otherwise a non-null error response rejects it with
`new Error(errorResponse.error)` and clears it; in every other case
nothing happens. Returns the new state and the settle action
performed, if any. -/
def didCompleteAuthorizationFlow (st : ManagerFlowState)
    (response : Option AuthResponse) (errorResponse : Option AuthError) :
    ManagerFlowState × Option SettleAction :=
  match st.pendingResolver with
  | none => (st, none)
  | some pid =>
    match response with
    | some r => ({ st with pendingResolver := none }, some (.fulfilled pid r))
    | none =>
      match errorResponse with
      | some e => ({ st with pendingResolver := none }, some (.rejected pid e.error))
      | none => (st, none)

/-- State effect of `signInPopup` (lines 73-84): store a fresh pending
resolver and bind a freshly constructed PopupRequestHandler, replacing
any previous resolver and handler. Returns the new state and the
identity of the promise the caller awaits. -/
def signInPopup (st : ManagerFlowState) : ManagerFlowState × Nat :=
  ({ pendingResolver := some st.nextId
     authHandler := some (.popupHandler, st.nextId)
     nextId := st.nextId + 1 }, st.nextId)

/-- Events driving the flow-correlation state: a `signInPopup` call, or
an invocation of the notification point by a delivery channel. -/
inductive ManagerEvent where
  | popupSignIn
  | completeFlow (response : Option AuthResponse) (errorResponse : Option AuthError)
deriving Repr, DecidableEq

/-- One event step. A `signInPopup` call settles nothing by itself. -/
def stepManager (st : ManagerFlowState) : ManagerEvent → ManagerFlowState × Option SettleAction
  | .popupSignIn => ((signInPopup st).1, none)
  | .completeFlow r e => didCompleteAuthorizationFlow st r e

/-- Run of a sequence of events, collecting every settle action
performed. -/
def runManager (st : ManagerFlowState) : List ManagerEvent → ManagerFlowState × List SettleAction
  | [] => (st, [])
  | ev :: rest =>
    let (st1, act) := stepManager st ev
    let (st2, acts) := runManager st1 rest
    (st2, act.toList ++ acts)

/-! ### redirectCallback (oauth-manager.ts lines 106-116)

`redirectCallback` stores a fresh pending resolver, binds a freshly
constructed RedirectRequestHandler and calls its
`completeAuthorizationRequestIfPossible` (return value discarded). The
returned promise is settled only through the notification point. -/

/-- Modelled from the spec: the behaviour of the redirect delivery
channel of the external OIDC client library (not part of this
repository), at its boundary. Per the spec, on
completeAuthorizationRequestIfPossible it reads back the serialized
request and, when a pending response or error is present in the
current URL, invokes the notification point with it; `none` models the
case where no pending authorization response is present, in which the
notification point is never invoked. -/
def ChannelReport := Option (Option AuthResponse × Option AuthError)

/-- Caller-visible result of the promise returned by `redirectCallback`
once the channel has had its chance to report: still pending, fulfilled
with the authorization code (then chained into the token exchange), or
rejected with an Error message. -/
inductive PromiseOutcome where
  | pending
  | fulfilledWith (code : String)
  | rejectedWith (message : String)
deriving Repr, DecidableEq

/-- Embedding of `OAuthManager.redirectCallback`: store a fresh pending
resolver, bind a fresh RedirectRequestHandler, and let the channel
report; the promise settles exactly when the notification point is
invoked with a response or an error. -/
def redirectCallback (st : ManagerFlowState) (report : ChannelReport) :
    ManagerFlowState × PromiseOutcome :=
  let st1 : ManagerFlowState :=
    { pendingResolver := some st.nextId
      authHandler := some (.redirectHandler, st.nextId)
      nextId := st.nextId + 1 }
  match report with
  | none => (st1, .pending)
  | some (r, e) =>
    let (st2, act) := didCompleteAuthorizationFlow st1 r e
    match act with
    | some (.fulfilled _ resp) => (st2, .fulfilledWith resp.code)
    | some (.rejected _ msg) => (st2, .rejectedWith msg)
    | none => (st2, .pending)

/-! ### Which parsing routine each operation uses
(oauth-manager.ts lines 122-125, 131-134, 140-151, 157-172)

`requestAccessToken` and `refreshAccessToken` delegate to
`this.tokenHandler.performTokenRequest` (the external appauth
BaseTokenRequestHandler); `requestSignOut` and `requestUserInfo` pipe
their fetch response through `this.parseResponse`. -/

/-- The four token-lifecycle operations of the manager. -/
inductive TokenLifecycleOp where
  | requestAccessToken
  | refreshAccessToken
  | requestSignOut
  | requestUserInfo
deriving Repr, DecidableEq

/-- The routine that parses the HTTP response of an operation. -/
inductive ResponseRoutine where
  | managerParseResponse
  | appAuthTokenHandler
deriving Repr, DecidableEq

/-- Response-parsing routine used by each operation, read off the
source: lines 124 and 133 call `tokenHandler.performTokenRequest`,
lines 149 and 168 call `this.parseResponse`. -/
def responseRoutineOf : TokenLifecycleOp → ResponseRoutine
  | .requestAccessToken => .appAuthTokenHandler
  | .refreshAccessToken => .appAuthTokenHandler
  | .requestSignOut => .managerParseResponse
  | .requestUserInfo => .managerParseResponse

/-! ### Assumed callback type (Bitski class, src/unnamed/part_000
lines 111-113 and 136-143) -/

/-- The integration types the Bitski class distinguishes. -/
inductive OAuthProviderIntegrationType where
  | SILENT
  | POPUP
  | REDIRECT
deriving Repr, DecidableEq

/-- The aspects of a Window the detection reads: whether `w.parent`
is `w` itself, and the truthiness of `w.opener`. -/
structure WindowModel where
  parentIsSelf : Bool
  hasOpener : Bool
deriving Repr, DecidableEq

/-- Embedding of `Bitski.assumedCallbackType`: SILENT when the window
is framed (`w.parent !== w`), else POPUP when it has an opener, else
REDIRECT. -/
def assumedCallbackType (w : WindowModel) : OAuthProviderIntegrationType :=
  if !w.parentIsSelf then .SILENT
  else if w.hasOpener then .POPUP
  else .REDIRECT

/-- The integration type `Bitski.signInCallback` forwards to the auth
provider: the explicit argument when one is given, otherwise the
assumed callback type of the current window. -/
def signInCallback (explicitType : Option OAuthProviderIntegrationType)
    (w : WindowModel) : OAuthProviderIntegrationType :=
  match explicitType with
  | some t => t
  | none => assumedCallbackType w

/-! ### Spec-side restatement of the response-parsing priority

Second definition, following the amended specification wording, to be
compared with the embedding `parseResponse` read off the source. -/

/-- Amended specification of the non-2xx error-message priority: the
message comes from error.message when the body, its error field and the
message field are all truthy; else from the error field when the body
and it are truthy; else it is the generic fallback; chosen values are
stringified JavaScript-style. -/
def errorMessageSpec (json : JVal) : String :=
  if truthy (some json) then
    if truthy (jsGet (some json) "error") then
      if truthy (jsGet (jsGet (some json) "error") "message") then
        jsToStringOpt (jsGet (jsGet (some json) "error") "message")
      else
        jsToStringOpt (jsGet (some json) "error")
    else "Unknown error"
  else "Unknown error"

/-- Amended specification of the whole parsing routine: unparseable
body rejects with the generic could-not-parse message regardless of
status; a parsed body with 2xx status is returned; otherwise the
rejection message follows `errorMessageSpec`. -/
def parseResponseSpec (status : Nat) (body : Option JVal) : ParseResult :=
  match body with
  | none => .error "Unknown error. Could not parse error response"
  | some json =>
    if 200 ≤ status ∧ status < 300 then .ok json
    else .error (errorMessageSpec json)

/-- A response body whose error.message field is present but empty
(falsy): parsed from the JSON text of an error reply whose message is
the empty string. -/
def presentEmptyMessageBody : JVal :=
  .jobj [("error", .jobj [("message", .jstr "")])]

/-- A response body of the shape the spec exercises for the token
endpoint error path. -/
def invalidGrantBody : JVal :=
  .jobj [("error", .jobj [("message", .jstr "invalid_grant")])]

/-! ## Theorems -/

/-- Helper: membership in the shared scopes array is preserved by any
further sequence of manager constructions (each construction only
appends). -/
theorem mem_foldl_constructManagerScopes (x : ScopeElem) :
    ∀ (adds : List (Option (List String))) (init : List ScopeElem),
      x ∈ init → x ∈ adds.foldl constructManagerScopes init := by
  intro adds
  induction adds with
  | nil =>
    intro init h
    simpa using h
  | cons a rest ih =>
    intro init h
    simp only [List.foldl_cons]
    exact ih _ (by simp [constructManagerScopes, h])

/-- C1: the claim that scopes are deduplicated and never accumulate
across repeated manager constructions fails on the code: the
constructor mutates the shared module-level DEFAULT_SCOPES array, so
after two default constructions every manager joins its scopes to
"openid offline offline" (the default additional scope appears twice),
and a second construction with an explicitly empty additionalScopes
still carries "offline" from the first construction, contradicting the
own documentation of the constructor. -/
theorem scopes_accumulate_across_constructions :
    joinScopes (scopesAfterConstructions [none, none]) = "openid offline offline" ∧
    joinScopes (scopesAfterConstructions [none, some []]) = "openid offline " ∧
    (scopesAfterConstructions [none, none]).count (ScopeElem.arr ["offline"]) = 2 := by
  refine ⟨rfl, rfl, ?_⟩
  decide

/-- C7: the scope list used to build every authorization request always
contains the scope "openid": whatever sequence of constructions (with
whatever additionalScopes options, including the empty array) produced
the shared scopes array, the element "openid" is in it, and the request
built from it carries its space-join as scope. -/
theorem authRequest_scope_contains_openid
    (adds : List (Option (List String))) (clientId redirectUri freshVerifier : String) :
    ScopeElem.str "openid" ∈ scopesAfterConstructions adds ∧
    (createAuthRequest clientId redirectUri (scopesAfterConstructions adds) freshVerifier).scope
      = joinScopes (scopesAfterConstructions adds) := by
  constructor
  · exact mem_foldl_constructManagerScopes _ adds DEFAULT_SCOPES (by simp [DEFAULT_SCOPES])
  · rfl

/-- C10: when signInCallback receives no explicit integration type, the
assumed delivery channel is SILENT whenever the window is framed (its
parent is distinct from itself), even when an opener also exists;
otherwise POPUP when the window has an opener; otherwise REDIRECT. -/
theorem signInCallback_assumed_channel_priority (w : WindowModel) :
    (w.parentIsSelf = false → signInCallback none w = .SILENT) ∧
    (w.parentIsSelf = true → w.hasOpener = true → signInCallback none w = .POPUP) ∧
    (w.parentIsSelf = true → w.hasOpener = false → signInCallback none w = .REDIRECT) := by
  refine ⟨?_, ?_, ?_⟩ <;>
    (intro h
     first
       | (intro h2
          simp [signInCallback, assumedCallbackType, h, h2])
       | simp [signInCallback, assumedCallbackType, h])

/-- C10 witness: a framed window that also has an opener is assumed
SILENT. -/
theorem signInCallback_assumed_channel_priority_witness :
    signInCallback none { parentIsSelf := false, hasOpener := true } = .SILENT :=
  (signInCallback_assumed_channel_priority
    { parentIsSelf := false, hasOpener := true }).1 rfl

/-- C9: requestUserInfo with a configuration whose user-info endpoint is
absent (or empty, which the source treats alike) rejects immediately,
producing a rejection and no HTTP request; with a present endpoint it
performs a GET to that endpoint with bearer authorization. -/
theorem requestUserInfo_endpoint_check (cfg : ServiceConfiguration) (accessToken : String) :
    (endpointPresent cfg.userInfoEndpoint = false →
      requestUserInfo cfg accessToken = .rejected "Could not find userinfo endpoint") ∧
    (∀ ep, cfg.userInfoEndpoint = some ep → ep ≠ "" →
      requestUserInfo cfg accessToken = .httpGet ep
        [("Accept", "application/json"), ("Authorization", "Bearer " ++ accessToken)]) := by
  constructor
  · intro h
    cases hep : cfg.userInfoEndpoint with
    | none => simp [requestUserInfo, hep]
    | some ep =>
      rw [hep] at h
      simp only [endpointPresent, bne_eq_false_iff_eq] at h
      simp [requestUserInfo, hep, h]
  · intro ep hep hne
    simp [requestUserInfo, hep, hne]

/-- C9 witness: the default configuration carries a user-info endpoint
and yields the bearer GET; stripping the endpoint yields the immediate
rejection. -/
theorem requestUserInfo_endpoint_check_witness :
    requestUserInfo { DEFAULT_CONFIGURATION with userInfoEndpoint := none } "token123"
        = .rejected "Could not find userinfo endpoint" ∧
    requestUserInfo DEFAULT_CONFIGURATION "token123"
        = .httpGet "https://account.bitski.com/userinfo"
        [("Accept", "application/json"), ("Authorization", "Bearer token123")] :=
  ⟨(requestUserInfo_endpoint_check
      { DEFAULT_CONFIGURATION with userInfoEndpoint := none } "token123").1 rfl,
   (requestUserInfo_endpoint_check DEFAULT_CONFIGURATION "token123").2
      "https://account.bitski.com/userinfo" rfl (by decide)⟩

/-- C2: if an invocation of didCompleteAuthorizationFlow settled the
pending entry (resolved or rejected it), that invocation cleared the
entry, and any second invocation is a no-op: it changes nothing and
performs no further settlement, so the caller-visible promise is
settled exactly once. -/
theorem didCompleteAuthorizationFlow_second_invocation_noop
    (st : ManagerFlowState) (r r2 : Option AuthResponse) (e e2 : Option AuthError)
    (st1 : ManagerFlowState) (act : SettleAction)
    (h : didCompleteAuthorizationFlow st r e = (st1, some act)) :
    st1.pendingResolver = none ∧
    didCompleteAuthorizationFlow st1 r2 e2 = (st1, none) := by
  cases st with
  | mk pr ah n =>
    cases pr <;> cases r <;> cases e <;>
      simp_all [didCompleteAuthorizationFlow] <;>
      (obtain ⟨h1, h2⟩ := h
       subst h1
       simp [didCompleteAuthorizationFlow])

/-- C2 witness: a fulfilled flow clears the entry, and re-notifying the
settled manager (even with an error this time) is a no-op. -/
theorem didCompleteAuthorizationFlow_second_invocation_noop_witness :
    (⟨none, some (.popupHandler, 0), 1⟩ : ManagerFlowState).pendingResolver = none ∧
    didCompleteAuthorizationFlow ⟨none, some (.popupHandler, 0), 1⟩
        none (some ⟨"access_denied", "denied"⟩)
      = (⟨none, some (.popupHandler, 0), 1⟩, none) :=
  didCompleteAuthorizationFlow_second_invocation_noop
    ⟨some 0, some (.popupHandler, 0), 1⟩
    (some ⟨"abc123", "state1"⟩) none none (some ⟨"access_denied", "denied"⟩)
    ⟨none, some (.popupHandler, 0), 1⟩ (.fulfilled 0 ⟨"abc123", "state1"⟩) rfl

/-- C4: a second signInPopup while a pending entry from an earlier flow
is unresolved replaces the pending entry and the bound delivery
channel (a new handler instance), and a subsequent completion
notification settles only the second promise: the run of the two
sign-ins followed by one completion performs exactly one settlement,
targeting the second promise, and the first promise is settled by no
action of the run. -/
theorem second_signIn_supersedes_first (st0 : ManagerFlowState) (r : AuthResponse) :
    ((signInPopup (signInPopup st0).1).1).pendingResolver = some (st0.nextId + 1) ∧
    ((signInPopup (signInPopup st0).1).1).authHandler
      = some (.popupHandler, st0.nextId + 1) ∧
    (signInPopup st0).2 = st0.nextId ∧
    (runManager st0 [.popupSignIn, .popupSignIn, .completeFlow (some r) none]).2
      = [SettleAction.fulfilled (st0.nextId + 1) r] ∧
    ((runManager st0 [.popupSignIn, .popupSignIn, .completeFlow (some r) none]).2.map
        SettleAction.promiseId).contains st0.nextId = false := by
  refine ⟨rfl, rfl, rfl, rfl, ?_⟩
  simp [runManager, stepManager, signInPopup, didCompleteAuthorizationFlow,
    SettleAction.promiseId, List.contains]

/-- C4 witness: from a fresh manager, promise 0 of the first sign-in is
superseded; the completion settles only promise 1. -/
theorem second_signIn_supersedes_first_witness :
    ((signInPopup (signInPopup initialFlowState).1).1).pendingResolver = some 1 ∧
    ((signInPopup (signInPopup initialFlowState).1).1).authHandler
      = some (.popupHandler, 1) ∧
    (signInPopup initialFlowState).2 = 0 ∧
    (runManager initialFlowState
        [.popupSignIn, .popupSignIn, .completeFlow (some ⟨"code9", "st9"⟩) none]).2
      = [SettleAction.fulfilled 1 ⟨"code9", "st9"⟩] ∧
    ((runManager initialFlowState
        [.popupSignIn, .popupSignIn, .completeFlow (some ⟨"code9", "st9"⟩) none]).2.map
        SettleAction.promiseId).contains 0 = false :=
  second_signIn_supersedes_first initialFlowState ⟨"code9", "st9"⟩

/-- C3 counterexample: redirectCallback invoked when no pending
authorization response is present (the channel never invokes the
notification point) leaves the returned promise pending forever,
refuting the claim that it rejects with a ConfigurationError condition
and never remains pending. -/
theorem redirectCallback_no_response_stays_pending :
    (redirectCallback initialFlowState none).2 = PromiseOutcome.pending := rfl

/-- C3 (amended): the promise returned by redirectCallback settles only
through the notification point: when the channel reports no pending
response the promise remains pending, and when the channel reports an
error the promise rejects with a plain Error carrying the provider
error string (not a ConfigurationError); a reported response fulfills
it with the authorization code. -/
theorem redirectCallback_settles_only_via_notification (st : ManagerFlowState)
    (e : AuthError) (r : AuthResponse) :
    (redirectCallback st none).2 = PromiseOutcome.pending ∧
    (redirectCallback st (some (none, some e))).2 = PromiseOutcome.rejectedWith e.error ∧
    (redirectCallback st (some (some r, none))).2 = PromiseOutcome.fulfilledWith r.code := by
  refine ⟨rfl, ?_, ?_⟩ <;>
    simp [redirectCallback, didCompleteAuthorizationFlow]

/-- C5 counterexample: with status 400 and a body whose error.message
field is present but empty, the claim as stated requires the rejection
message to be taken from error.message (the empty string); the code
instead checks truthiness, falls through to the error object, and
rejects with its stringification "[object Object]". -/
theorem parseResponse_present_empty_message_cex :
    parseResponse 400 (some presentEmptyMessageBody) ≠ ParseResult.error "" ∧
    parseResponse 400 (some presentEmptyMessageBody)
      = ParseResult.error "[object Object]" := by
  constructor
  · intro h
    rw [show parseResponse 400 (some presentEmptyMessageBody)
          = ParseResult.error "[object Object]" from rfl] at h
    exact absurd (ParseResult.error.inj h) (by decide)
  · rfl

/-- C5 (amended): the response-parsing routine matches the amended
specification at every input: an unparseable body rejects with the
generic could-not-parse message (never a raw parse exception); a parsed
body with a status in the interval from 200 up to but excluding 300 is
returned; otherwise the rejection message is the stringified
error.message if the body, error and message are truthy, else the
stringified error if the body and error are truthy, else the generic
"Unknown error" string, in that priority order. -/
theorem parseResponse_matches_truthy_priority (status : Nat) (body : Option JVal) :
    parseResponse status body = parseResponseSpec status body := by
  cases body with
  | none => rfl
  | some json =>
    unfold parseResponse parseResponseSpec errorMessageSpec
    by_cases h2xx : 200 ≤ status ∧ status < 300
    · simp [h2xx]
    · cases hj : truthy (some json) <;>
        cases he : truthy (jsGet (some json) "error") <;>
          cases hm : truthy (jsGet (jsGet (some json) "error") "message") <;>
            simp [h2xx, hj, he, hm]

/-- C6 counterexample: the code-for-token exchange does not use the
same response-parsing routine as the other token-lifecycle operations:
requestAccessToken delegates parsing to the external AppAuth token
handler while requestUserInfo uses the manager parseResponse. -/
theorem requestAccessToken_routine_differs :
    responseRoutineOf TokenLifecycleOp.requestAccessToken
      ≠ responseRoutineOf TokenLifecycleOp.requestUserInfo := by
  decide

/-- C6 (amended): only requestSignOut and requestUserInfo share the
manager parseResponse routine; requestAccessToken and
refreshAccessToken delegate response parsing to the external AppAuth
token handler. The shared parseResponse itself, on status 400 with a
body carrying error.message "invalid_grant", rejects with message
"invalid_grant", and on an unparseable body (whatever the status, 200
included) rejects with the generic unknown-error message rather than a
raw parse exception. -/
theorem tokenExchange_routine_split :
    responseRoutineOf TokenLifecycleOp.requestAccessToken = .appAuthTokenHandler ∧
    responseRoutineOf TokenLifecycleOp.refreshAccessToken = .appAuthTokenHandler ∧
    responseRoutineOf TokenLifecycleOp.requestSignOut = .managerParseResponse ∧
    responseRoutineOf TokenLifecycleOp.requestUserInfo = .managerParseResponse ∧
    parseResponse 400 (some invalidGrantBody) = ParseResult.error "invalid_grant" ∧
    parseResponse 200 none
      = ParseResult.error "Unknown error. Could not parse error response" :=
  ⟨rfl, rfl, rfl, rfl, rfl, rfl⟩

/-- C8 counterexample: the authorization request built for a sign-in
attempt carries no PKCE code verifier: PKCE is disabled by the literal
false constructor argument, so no new code verifier is generated even
though the library was handed a fresh one to use had PKCE been
enabled. -/
theorem createAuthRequest_no_code_verifier :
    (createAuthRequest "test-client" "https://example.com/callback"
        (scopesAfterConstructions [none]) "freshly-generated-verifier").usePkce = false ∧
    (createAuthRequest "test-client" "https://example.com/callback"
        (scopesAfterConstructions [none]) "freshly-generated-verifier").codeVerifier
      = none :=
  ⟨rfl, rfl⟩

/-- C8 (amended): every sign-in attempt builds a fresh
AuthorizationRequest through createAuthRequest, fully determined by the
current client id, redirect URI and scopes: response type "code" and
the space-joined scope string; but PKCE is explicitly disabled, so the
request carries no newly generated code verifier or challenge,
whatever fresh verifier the library could have generated. -/
theorem createAuthRequest_pkce_disabled (clientId redirectUri freshVerifier : String)
    (scopes : List ScopeElem) :
    createAuthRequest clientId redirectUri scopes freshVerifier =
      { clientId := clientId, redirectUri := redirectUri, responseType := "code",
        scope := joinScopes scopes, usePkce := false, codeVerifier := none } := rfl

end BitskiJs
